import Mathlib

/-!
# WebAuthn registration ceremony (internal/handlers/handler_register_webauthn.go)

A shallow embedding of the two handlers of the registration ceremony,
`SecondFactorWebauthnAttestationGET` (Begin) and
`SecondFactorWebauthnAttestationPOST` (Finish).

The handlers are written in state-passing style over `AutheliaCtx`.  Every
collaborator that the handlers call but that is declared outside the handler
file (the WebAuthn library, the storage provider, the session provider, JSON
encoding) is a field of `Env`, so every statement below holds for all
behaviours of those collaborators.  `Logger.Errorf` calls only write to the
server log and are left out of the context.
-/

namespace Authelia

/-- Go byte slices. -/
abbrev Bytes := List Nat

/-- Go `error` values that are not nil. -/
abbrev Error := String

/-- Modelled from the spec: the pending Challenge of section 3 (the library type
`webauthn.SessionData`): random challenge bytes, relying-party identifier, user
handle and exclusion list. -/
structure SessionData where
  Challenge : Bytes
  RelyingPartyID : String
  UserID : Bytes
  ExcludedCredentials : List Bytes
deriving DecidableEq, Repr

/-- Modelled from the spec: the wire representation of the Challenge returned to
the client by Begin (the library type `protocol.CredentialCreation`). -/
structure CredentialCreation where
  Challenge : Bytes
  RelyingPartyID : String
  UserID : Bytes
  ExcludedCredentials : List Bytes
deriving DecidableEq, Repr

/-- Modelled from the spec: the AttestationResponse of section 3 after parsing (the
library type `protocol.ParsedCredentialCreationData`). -/
structure ParsedCredentialCreationData where
  Origin : String
  RelyingPartyID : String
  Challenge : Bytes
  CredentialID : Bytes
  PublicKey : Bytes
  Signature : Bytes
deriving DecidableEq, Repr

/-- Modelled from the spec: the verified Credential value object of section 4.3
(the library type `webauthn.Credential`). -/
structure Credential where
  ID : Bytes
  PublicKey : Bytes
  SignCount : Nat
  AttestationType : String
deriving DecidableEq, Repr

/-- Modelled from the spec: the Device of section 3 (`models.WebauthnDevice`, declared
outside the handler file). -/
structure WebauthnDevice where
  Username : String
  Description : String
  KID : Bytes
  PublicKey : Bytes
  SignCount : Nat
  CreatedAt : Nat
  IP : Bytes
deriving DecidableEq, Repr

/-- Modelled from the spec: the Identity of section 3 (`models.WebauthnUser`, declared
outside the handler file): username, display name and the registered devices. -/
structure WebauthnUser where
  Username : String
  DisplayName : String
  Devices : List WebauthnDevice
deriving DecidableEq, Repr

/-- The credential identifiers already registered for an identity. -/
def WebauthnUser.credentialIDs (u : WebauthnUser) : List Bytes :=
  u.Devices.map WebauthnDevice.KID

/-- Modelled from the spec: the relying-party configuration value (`webauthn.WebAuthn`). -/
structure WebAuthn where
  RPID : String
  RPOrigin : String
  RPDisplayName : String
deriving DecidableEq, Repr

/-- Modelled from the spec: the session record (`session.UserSession`, declared outside
the handler file).  `Webauthn` is the pending-challenge slot, a pointer in the
source: `none` is the nil pointer. -/
structure UserSession where
  Username : String
  DisplayName : String
  Emails : List String
  Groups : List String
  AuthenticationLevel : Nat
  Webauthn : Option SessionData
deriving DecidableEq, Repr

/-- Response bodies the handlers can write. -/
inductive Body where
  | empty
  | jsonError (message : String)
  | jsonOK
  | json (payload : Option CredentialCreation)
deriving DecidableEq, Repr

/-- The response held by the request context. -/
structure Response where
  statusCode : Nat
  body : Body
deriving DecidableEq, Repr

/-- The constant `fasthttp.StatusOK`. -/
def StatusOK : Nat := 200

/-- The constant `fasthttp.StatusCreated`. -/
def StatusCreated : Nat := 201

/-- The constant `fasthttp.StatusUnauthorized`. -/
def StatusUnauthorized : Nat := 401

/-- Modelled from the spec: the constant `messageUnableToRegisterSecurityKey` is declared
outside the handler file; section 7 names it the "registration unavailable" message. -/
def messageUnableToRegisterSecurityKey : String := "registration unavailable"

/-- Modelled from the spec: the constant `messageMFAValidationFailed` is declared outside
the handler file; section 7 names it the "validation failed" message. -/
def messageMFAValidationFailed : String := "validation failed"

/-- The request context `*middlewares.AutheliaCtx`, reduced to what the two handlers
read and write: the request (`postBody`, `remoteIP`), the session record held
by the session provider, the device repository held by the storage provider and
the response.  `saveWebauthnDeviceCalls` and `saveSessionCalls` record, in
order, the argument of every `SaveWebauthnDevice` and `SaveSession` call. -/
structure AutheliaCtx where
  postBody : Bytes
  remoteIP : Bytes
  session : UserSession
  storage : List WebauthnDevice
  response : Response
  saveWebauthnDeviceCalls : List WebauthnDevice
  saveSessionCalls : List UserSession
deriving DecidableEq, Repr

/-- The collaborators of the handlers that live outside the handler file, each with
the signature the handler uses.  A Go result `(v, err)` is an `Except`; a bare
`error` result is an `Option Error` (`none` is nil).  `BeginRegistration`
returns its three results as a triple because the handler assigns the second
one to the session before it tests the third. -/
structure Env where
  getWebauthn : AutheliaCtx → Except Error WebAuthn
  getWebAuthnUser : AutheliaCtx → UserSession → Except Error WebauthnUser
  BeginRegistration : WebAuthn → WebauthnUser →
    Option CredentialCreation × Option SessionData × Option Error
  ParseCredentialCreationResponseBody : Bytes → Except Error ParsedCredentialCreationData
  CreateCredential : WebAuthn → WebauthnUser → SessionData →
    ParsedCredentialCreationData → Except Error Credential
  NewWebauthnDeviceFromCredential : String → String → Bytes → Credential → WebauthnDevice
  storageSaveWebauthnDevice : List WebauthnDevice → WebauthnDevice →
    Except Error (List WebauthnDevice)
  sessionSave : UserSession → Option Error
  encodeJSONBody : Option CredentialCreation → Option Error

/-- How a handler invocation ends: it returns, or the goroutine panics (here only
on a nil pointer dereference).  Either way the context reached is kept. -/
inductive Run where
  | returned (ctx : AutheliaCtx)
  | panicked (ctx : AutheliaCtx)
deriving DecidableEq, Repr

/-- The context a run ended in. -/
def Run.ctx : Run → AutheliaCtx
  | .returned c => c
  | .panicked c => c

/-- Whether the run ended in a panic. -/
def Run.isPanic : Run → Bool
  | .returned _ => false
  | .panicked _ => true

/-- The method `ctx.GetSession()`: a copy of the stored session record. -/
def AutheliaCtx.GetSession (ctx : AutheliaCtx) : UserSession :=
  ctx.session

/-- The method `ctx.SetStatusCode(code)`. -/
def AutheliaCtx.SetStatusCode (ctx : AutheliaCtx) (code : Nat) : AutheliaCtx :=
  { ctx with response := { ctx.response with statusCode := code } }

/-- Modelled from the spec: `ctx.SetJSONError(message)` is declared outside the handler
file; it writes the generic error message as the body. -/
def AutheliaCtx.SetJSONError (ctx : AutheliaCtx) (message : String) : AutheliaCtx :=
  { ctx with response := { ctx.response with body := Body.jsonError message } }

/-- Modelled from the spec: `respondUnauthorized(ctx, message)` is declared outside the
handler file; section 6 gives its effect, the authorization-denied status with
a generic message. -/
def respondUnauthorized (ctx : AutheliaCtx) (message : String) : AutheliaCtx :=
  (ctx.SetStatusCode StatusUnauthorized).SetJSONError message

/-- Modelled from the spec: `ctx.ReplyOK()` is declared outside the handler file; it writes
the success body and leaves the status code alone. -/
def AutheliaCtx.ReplyOK (ctx : AutheliaCtx) : AutheliaCtx :=
  { ctx with response := { ctx.response with body := Body.jsonOK } }

/-- Modelled from the spec: `ctx.SaveSession(userSession)` is declared outside the handler
file; section 6 gives the session contract, a save of the whole record.  The
call is recorded; when the provider reports no error the stored record becomes
`userSession`, otherwise the stored record is left as it was. -/
def AutheliaCtx.SaveSession (env : Env) (ctx : AutheliaCtx) (userSession : UserSession) :
    AutheliaCtx × Option Error :=
  let ctx1 := { ctx with saveSessionCalls := ctx.saveSessionCalls ++ [userSession] }
  match env.sessionSave userSession with
  | some err => (ctx1, some err)
  | none => ({ ctx1 with session := userSession }, none)

/-- Modelled from the spec: `ctx.Providers.StorageProvider.SaveWebauthnDevice(ctx, device)`
is an interface method declared outside the handler file; section 6 gives the
repository contract `saveDevice(device) -> ok | StorageError`.  The call is
recorded; on success the repository becomes what the provider returns, on
error it is left as it was. -/
def AutheliaCtx.SaveWebauthnDevice (env : Env) (ctx : AutheliaCtx) (device : WebauthnDevice) :
    AutheliaCtx × Option Error :=
  let ctx1 := { ctx with saveWebauthnDeviceCalls := ctx.saveWebauthnDeviceCalls ++ [device] }
  match env.storageSaveWebauthnDevice ctx.storage device with
  | .error err => (ctx1, some err)
  | .ok storage => ({ ctx1 with storage := storage }, none)

/-- Modelled from the spec: `ctx.SetJSONBody(value)` is declared outside the handler file;
it encodes the value as the response body, or reports an encoding error and
leaves the response alone. -/
def AutheliaCtx.SetJSONBody (env : Env) (ctx : AutheliaCtx) (value : Option CredentialCreation) :
    AutheliaCtx × Option Error :=
  match env.encodeJSONBody value with
  | some err => (ctx, some err)
  | none => ({ ctx with response := { ctx.response with body := Body.json value } }, none)

/-- The handler `SecondFactorWebauthnAttestationGET` (Begin): returns the attestation
challenge from the server.  Its second parameter, a string the body never
reads, is dropped. -/
def SecondFactorWebauthnAttestationGET (env : Env) (ctx : AutheliaCtx) : Run :=
  let userSession := ctx.GetSession
  match env.getWebauthn ctx with
  | .error _ => .returned (respondUnauthorized ctx messageUnableToRegisterSecurityKey)
  | .ok w =>
    match env.getWebAuthnUser ctx userSession with
    | .error _ => .returned (respondUnauthorized ctx messageMFAValidationFailed)
    | .ok user =>
      match env.BeginRegistration w user with
      | (credentialCreation, sessionData, err) =>
        let userSession := { userSession with Webauthn := sessionData }
        match err with
        | some _ => .returned (respondUnauthorized ctx messageUnableToRegisterSecurityKey)
        | none =>
          match ctx.SaveSession env userSession with
          | (ctx, some _) => .returned (respondUnauthorized ctx messageUnableToRegisterSecurityKey)
          | (ctx, none) =>
            match ctx.SetJSONBody env credentialCreation with
            | (ctx, some _) =>
              .returned (respondUnauthorized ctx messageUnableToRegisterSecurityKey)
            | (ctx, none) => .returned ctx

/-- The handler `SecondFactorWebauthnAttestationPOST` (Finish): processes the attestation
challenge response from the client.  The argument `*userSession.Webauthn` of
`CreateCredential` dereferences the pending-challenge pointer; when it is nil
the goroutine panics before `CreateCredential` is entered. -/
def SecondFactorWebauthnAttestationPOST (env : Env) (ctx : AutheliaCtx) : Run :=
  let userSession := ctx.GetSession
  match env.getWebauthn ctx with
  | .error _ => .returned (respondUnauthorized ctx messageUnableToRegisterSecurityKey)
  | .ok w =>
    match env.ParseCredentialCreationResponseBody ctx.postBody with
    | .error _ => .returned (respondUnauthorized ctx messageMFAValidationFailed)
    | .ok attestationResponse =>
      match env.getWebAuthnUser ctx userSession with
      | .error _ => .returned (respondUnauthorized ctx messageMFAValidationFailed)
      | .ok user =>
        match userSession.Webauthn with
        | none => .panicked ctx
        | some sessionData =>
          match env.CreateCredential w user sessionData attestationResponse with
          | .error _ => .returned (respondUnauthorized ctx messageMFAValidationFailed)
          | .ok credential =>
            let device := env.NewWebauthnDeviceFromCredential
              userSession.Username "Primary" ctx.remoteIP credential
            match ctx.SaveWebauthnDevice env device with
            | (ctx, some _) => .returned (respondUnauthorized ctx messageMFAValidationFailed)
            | (ctx, none) =>
              let userSession := { userSession with Webauthn := none }
              match ctx.SaveSession env userSession with
              | (ctx, some _) => .returned (respondUnauthorized ctx messageMFAValidationFailed)
              | (ctx, none) => .returned (ctx.ReplyOK.SetStatusCode StatusCreated)

/-- A new request arriving on the session record and the repository that an earlier
request left behind: fresh response, nothing called yet. -/
def nextRequest (prev : AutheliaCtx) (postBody remoteIP : Bytes) : AutheliaCtx :=
  { postBody := postBody
    remoteIP := remoteIP
    session := prev.session
    storage := prev.storage
    response := { statusCode := StatusOK, body := Body.empty }
    saveWebauthnDeviceCalls := []
    saveSessionCalls := [] }

/-! ## Concrete collaborators and requests used to exercise the handlers -/

/-- A pending challenge `C`. -/
def challengeC : SessionData :=
  { Challenge := [12, 34, 56], RelyingPartyID := "auth.example.com", UserID := [98, 111, 98],
    ExcludedCredentials := [] }

/-- The session of `bob` with no ceremony started. -/
def bobIdle : UserSession :=
  { Username := "bob", DisplayName := "Bob", Emails := ["bob@example.com"], Groups := ["dev"],
    AuthenticationLevel := 1, Webauthn := none }

/-- The session of `bob` after a Begin that issued `challengeC`. -/
def bobChallenged : UserSession :=
  { bobIdle with Webauthn := some challengeC }

/-- A request with the given body on the given session and repository. -/
def request (postBody : Bytes) (session : UserSession) (storage : List WebauthnDevice) :
    AutheliaCtx :=
  { postBody := postBody
    remoteIP := [192, 168, 0, 7]
    session := session
    storage := storage
    response := { statusCode := StatusOK, body := Body.empty }
    saveWebauthnDeviceCalls := []
    saveSessionCalls := [] }

/-- Collaborators that all work: an empty body does not parse, verification
compares the echoed challenge with the pending one, the repository appends. -/
def envOK : Env :=
  { getWebauthn := fun _ =>
      .ok { RPID := "auth.example.com", RPOrigin := "https://auth.example.com",
            RPDisplayName := "Authelia" }
    getWebAuthnUser := fun ctx s =>
      .ok { Username := s.Username, DisplayName := s.DisplayName,
            Devices := ctx.storage.filter (fun d => d.Username == s.Username) }
    BeginRegistration := fun w u =>
      (some { Challenge := [12, 34, 56], RelyingPartyID := w.RPID, UserID := [98, 111, 98],
              ExcludedCredentials := u.credentialIDs },
       some { challengeC with ExcludedCredentials := u.credentialIDs }, none)
    ParseCredentialCreationResponseBody := fun b =>
      match b with
      | [] => .error "empty body"
      | k :: c =>
        .ok { Origin := "https://auth.example.com", RelyingPartyID := "auth.example.com",
              Challenge := c, CredentialID := [k], PublicKey := [1, 2, 3], Signature := [4] }
    CreateCredential := fun _ _ sd p =>
      if p.Challenge = sd.Challenge then
        .ok { ID := p.CredentialID, PublicKey := p.PublicKey, SignCount := 0,
              AttestationType := "none" }
      else .error "challenge mismatch"
    NewWebauthnDeviceFromCredential := fun username description ip c =>
      { Username := username, Description := description, KID := c.ID,
        PublicKey := c.PublicKey, SignCount := c.SignCount, CreatedAt := 0, IP := ip }
    storageSaveWebauthnDevice := fun st d => .ok (st ++ [d])
    sessionSave := fun _ => none
    encodeJSONBody := fun _ => none }

/-- As `envOK`, but the WebAuthn configuration cannot be built. -/
def envConfigFails : Env :=
  { envOK with getWebauthn := fun _ => .error "rp not configured" }

/-- As `envOK`, but the devices of the user cannot be loaded. -/
def envUserFails : Env :=
  { envOK with getWebAuthnUser := fun _ _ => .error "storage unreachable" }

/-- As `envOK`, but the repository rejects every device. -/
def envStorageFails : Env :=
  { envOK with storageSaveWebauthnDevice := fun _ _ => .error "storage error" }

/-- As `envOK`, but the session provider rejects every save. -/
def envSessionFails : Env :=
  { envOK with sessionSave := fun _ => some "session write error" }

/-- The device `envOK` builds for credential identifier `[7]`. -/
def bobDevice : WebauthnDevice :=
  { Username := "bob", Description := "Primary", KID := [7], PublicKey := [1, 2, 3],
    SignCount := 0, CreatedAt := 0, IP := [192, 168, 0, 7] }

/-- The identity `envOK` loads for `bob` when `bobDevice` is already registered. -/
def bobUser : WebauthnUser :=
  { Username := "bob", DisplayName := "Bob", Devices := [bobDevice] }

/-- The credential `envOK` verifies from the body `[7, 12, 34, 56]`. -/
def bobCredential : Credential :=
  { ID := [7], PublicKey := [1, 2, 3], SignCount := 0, AttestationType := "none" }

/-! ## Shared lemmas -/

/-- What `respondUnauthorized` writes, and what it leaves alone. -/
theorem respondUnauthorized_eq (ctx : AutheliaCtx) (message : String) :
    respondUnauthorized ctx message =
      { ctx with response := { statusCode := StatusUnauthorized, body := Body.jsonError message } } :=
  rfl

/-- The two client-visible messages are different strings. -/
theorem messages_ne : messageUnableToRegisterSecurityKey ≠ messageMFAValidationFailed := by
  decide

/-- The three status codes in use are pairwise different. -/
theorem status_codes_ne :
    StatusUnauthorized ≠ StatusCreated ∧ StatusOK ≠ StatusCreated ∧
      StatusOK ≠ StatusUnauthorized := by
  decide

/-! ## Finish: `SecondFactorWebauthnAttestationPOST` -/

/-- Claim C1, evaluated on the code.  For every Finish request in which not all of the
four steps succeeded (configuration obtained, body parsed, user loaded,
`CreateCredential` succeeded on the parsed response against the pending
challenge of the session): `SaveWebauthnDevice` is not called and the
repository is unchanged, as the claim says.  The unauthorized response is
given in all these runs but one: when the first three steps succeed and the
session holds no pending challenge, the handler panics on the nil dereference
`*userSession.Webauthn` and ends on the incoming context, with no response
written. -/
theorem attestationPOST_step_failure_outcomes (env : Env) (ctx : AutheliaCtx)
    (hfail : ¬ ∃ w p u sd c,
      env.getWebauthn ctx = .ok w ∧
      env.ParseCredentialCreationResponseBody ctx.postBody = .ok p ∧
      env.getWebAuthnUser ctx ctx.session = .ok u ∧
      ctx.session.Webauthn = some sd ∧
      env.CreateCredential w u sd p = .ok c) :
    (SecondFactorWebauthnAttestationPOST env ctx).ctx.saveWebauthnDeviceCalls
        = ctx.saveWebauthnDeviceCalls ∧
      (SecondFactorWebauthnAttestationPOST env ctx).ctx.storage = ctx.storage ∧
      ((∃ w p u,
          env.getWebauthn ctx = .ok w ∧
          env.ParseCredentialCreationResponseBody ctx.postBody = .ok p ∧
          env.getWebAuthnUser ctx ctx.session = .ok u ∧
          ctx.session.Webauthn = none) →
        SecondFactorWebauthnAttestationPOST env ctx = Run.panicked ctx) ∧
      ((¬ ∃ w p u,
          env.getWebauthn ctx = .ok w ∧
          env.ParseCredentialCreationResponseBody ctx.postBody = .ok p ∧
          env.getWebAuthnUser ctx ctx.session = .ok u ∧
          ctx.session.Webauthn = none) →
        (SecondFactorWebauthnAttestationPOST env ctx).isPanic = false ∧
        (SecondFactorWebauthnAttestationPOST env ctx).ctx.response.statusCode
          = StatusUnauthorized ∧
        ((SecondFactorWebauthnAttestationPOST env ctx).ctx.response.body
            = Body.jsonError messageUnableToRegisterSecurityKey ∨
          (SecondFactorWebauthnAttestationPOST env ctx).ctx.response.body
            = Body.jsonError messageMFAValidationFailed)) := by
  revert hfail
  unfold SecondFactorWebauthnAttestationPOST
  cases hw : env.getWebauthn ctx with
  | error e => simp [respondUnauthorized_eq, Run.ctx, Run.isPanic, AutheliaCtx.GetSession]
  | ok w =>
    cases hp : env.ParseCredentialCreationResponseBody ctx.postBody with
    | error e => simp [respondUnauthorized_eq, Run.ctx, Run.isPanic, AutheliaCtx.GetSession]
    | ok p =>
      cases hu : env.getWebAuthnUser ctx ctx.session with
      | error e => simp [respondUnauthorized_eq, Run.ctx, Run.isPanic, AutheliaCtx.GetSession, hu]
      | ok u =>
        cases hs : ctx.session.Webauthn with
        | none => simp [Run.ctx, Run.isPanic, AutheliaCtx.GetSession, hu, hs]
        | some sd =>
          cases hc : env.CreateCredential w u sd p with
          | error e =>
            simp [respondUnauthorized_eq, Run.ctx, Run.isPanic, AutheliaCtx.GetSession, hu, hs, hc]
          | ok c =>
            simp [AutheliaCtx.GetSession, hu, hs, hc]

/-- Claim C1 at the failing request: `bob` posts a well-formed response on a session with
no pending challenge.  Not all four steps succeeded, nothing is saved, and the
run is a panic whose response is the untouched one, status 200 and not the
unauthorized 401. -/
theorem attestationPOST_step_failure_outcomes_witness :
    (SecondFactorWebauthnAttestationPOST envOK
        (request [7, 12, 34, 56] bobIdle [])).ctx.saveWebauthnDeviceCalls = [] ∧
      (SecondFactorWebauthnAttestationPOST envOK
        (request [7, 12, 34, 56] bobIdle [])).ctx.storage = [] ∧
      SecondFactorWebauthnAttestationPOST envOK (request [7, 12, 34, 56] bobIdle [])
        = Run.panicked (request [7, 12, 34, 56] bobIdle []) ∧
      (SecondFactorWebauthnAttestationPOST envOK
        (request [7, 12, 34, 56] bobIdle [])).ctx.response.statusCode = StatusOK ∧
      (SecondFactorWebauthnAttestationPOST envOK
        (request [7, 12, 34, 56] bobIdle [])).ctx.response.statusCode ≠ StatusUnauthorized :=
  have h := attestationPOST_step_failure_outcomes envOK (request [7, 12, 34, 56] bobIdle [])
    (fun ⟨_, _, _, _, _, _, _, _, hs, _⟩ => Option.noConfusion hs)
  ⟨h.1, h.2.1, h.2.2.1 ⟨_, _, _, rfl, rfl, rfl, rfl⟩, rfl, by decide⟩

/-- Claim C2, evaluated on the code.  For every Finish request with a valid configuration,
a parseable body and a loadable user whose session holds no pending challenge,
the handler panics on the nil dereference `*userSession.Webauthn`: it never
returns, and the context is exactly the incoming one, so no response is
written (in particular no unauthorized response) and no device is saved. -/
theorem attestationPOST_no_pending_challenge_panics (env : Env) (ctx : AutheliaCtx)
    (w : WebAuthn) (p : ParsedCredentialCreationData) (u : WebauthnUser)
    (hw : env.getWebauthn ctx = .ok w)
    (hp : env.ParseCredentialCreationResponseBody ctx.postBody = .ok p)
    (hu : env.getWebAuthnUser ctx ctx.session = .ok u)
    (hnil : ctx.session.Webauthn = none) :
    SecondFactorWebauthnAttestationPOST env ctx = Run.panicked ctx := by
  simp [SecondFactorWebauthnAttestationPOST, AutheliaCtx.GetSession, hw, hp, hu, hnil]

/-- Claim C2 at a concrete request: `bob` posts a well-formed response without a prior
Begin; the run panics and the response is still the untouched 200 with an
empty body, not the unauthorized validation-failed response. -/
theorem attestationPOST_no_pending_challenge_panics_witness :
    envOK.getWebauthn (request [7, 12, 34, 56] bobIdle []) =
        .ok { RPID := "auth.example.com", RPOrigin := "https://auth.example.com",
              RPDisplayName := "Authelia" } ∧
      (request [7, 12, 34, 56] bobIdle []).session.Webauthn = none ∧
      SecondFactorWebauthnAttestationPOST envOK (request [7, 12, 34, 56] bobIdle [])
        = Run.panicked (request [7, 12, 34, 56] bobIdle []) ∧
      (SecondFactorWebauthnAttestationPOST envOK (request [7, 12, 34, 56] bobIdle [])).ctx.response
        ≠ { statusCode := StatusUnauthorized,
            body := Body.jsonError messageMFAValidationFailed } :=
  ⟨rfl, rfl,
    attestationPOST_no_pending_challenge_panics envOK (request [7, 12, 34, 56] bobIdle [])
      _ _ _ rfl rfl rfl rfl,
    by decide⟩

/-- Claim C5.  For every Finish request in which the configuration, the parse, the user
load, `CreateCredential` and the device save succeed, `SaveWebauthnDevice` is
called exactly once, with the device that `NewWebauthnDeviceFromCredential`
builds from the session username, the label "Primary", the remote IP of the
request and the credential `CreateCredential` returned; the repository is
the one that save produced. -/
theorem attestationPOST_saves_exactly_the_built_device (env : Env) (ctx : AutheliaCtx)
    (w : WebAuthn) (p : ParsedCredentialCreationData) (u : WebauthnUser) (sd : SessionData)
    (c : Credential) (st : List WebauthnDevice)
    (hw : env.getWebauthn ctx = .ok w)
    (hp : env.ParseCredentialCreationResponseBody ctx.postBody = .ok p)
    (hu : env.getWebAuthnUser ctx ctx.session = .ok u)
    (hs : ctx.session.Webauthn = some sd)
    (hc : env.CreateCredential w u sd p = .ok c)
    (hst : env.storageSaveWebauthnDevice ctx.storage
      (env.NewWebauthnDeviceFromCredential ctx.session.Username "Primary" ctx.remoteIP c)
        = .ok st) :
    (SecondFactorWebauthnAttestationPOST env ctx).ctx.saveWebauthnDeviceCalls
        = ctx.saveWebauthnDeviceCalls ++
          [env.NewWebauthnDeviceFromCredential ctx.session.Username "Primary" ctx.remoteIP c] ∧
      (SecondFactorWebauthnAttestationPOST env ctx).ctx.storage = st := by
  simp only [SecondFactorWebauthnAttestationPOST, AutheliaCtx.GetSession, hw, hp, hu, hs, hc,
    AutheliaCtx.SaveWebauthnDevice, hst, AutheliaCtx.SaveSession]
  cases env.sessionSave { ctx.session with Webauthn := none } <;>
    simp [respondUnauthorized_eq, Run.ctx, AutheliaCtx.ReplyOK, AutheliaCtx.SetStatusCode]

/-- Claim C5 at the scenario of the spec: `bob` has no device, the pending challenge
is `C`, the response echoes `C`; exactly one device, owned by `bob` and
labelled "Primary", is saved. -/
theorem attestationPOST_saves_exactly_the_built_device_witness :
    (SecondFactorWebauthnAttestationPOST envOK
        (request [7, 12, 34, 56] bobChallenged [])).ctx.saveWebauthnDeviceCalls
        = [] ++ [bobDevice] ∧
      (SecondFactorWebauthnAttestationPOST envOK
        (request [7, 12, 34, 56] bobChallenged [])).ctx.storage = [bobDevice] :=
  attestationPOST_saves_exactly_the_built_device envOK
    (request [7, 12, 34, 56] bobChallenged []) _ _ _ challengeC _ [bobDevice]
    rfl rfl rfl rfl rfl rfl

/-- Claim C6.  For every Finish request in which the device is persisted and the session
save that follows succeeds, `SaveSession` is called once, the stored session
record is the incoming one with the pending-challenge slot set to nil (every
other field unchanged), and the handler returns with status 201 Created. -/
theorem attestationPOST_success_clears_challenge (env : Env) (ctx : AutheliaCtx)
    (w : WebAuthn) (p : ParsedCredentialCreationData) (u : WebauthnUser) (sd : SessionData)
    (c : Credential) (st : List WebauthnDevice)
    (hw : env.getWebauthn ctx = .ok w)
    (hp : env.ParseCredentialCreationResponseBody ctx.postBody = .ok p)
    (hu : env.getWebAuthnUser ctx ctx.session = .ok u)
    (hs : ctx.session.Webauthn = some sd)
    (hc : env.CreateCredential w u sd p = .ok c)
    (hst : env.storageSaveWebauthnDevice ctx.storage
      (env.NewWebauthnDeviceFromCredential ctx.session.Username "Primary" ctx.remoteIP c)
        = .ok st)
    (hse : env.sessionSave { ctx.session with Webauthn := none } = none) :
    (SecondFactorWebauthnAttestationPOST env ctx).ctx.session
        = { ctx.session with Webauthn := none } ∧
      (SecondFactorWebauthnAttestationPOST env ctx).ctx.saveSessionCalls
        = ctx.saveSessionCalls ++ [{ ctx.session with Webauthn := none }] ∧
      (SecondFactorWebauthnAttestationPOST env ctx).isPanic = false ∧
      (SecondFactorWebauthnAttestationPOST env ctx).ctx.response.statusCode = StatusCreated := by
  simp only [SecondFactorWebauthnAttestationPOST, AutheliaCtx.GetSession, hw, hp, hu, hs, hc,
    AutheliaCtx.SaveWebauthnDevice, hst, AutheliaCtx.SaveSession, hse]
  simp [Run.ctx, Run.isPanic, AutheliaCtx.ReplyOK, AutheliaCtx.SetStatusCode]

/-- Claim C6 at the scenario of the spec: after the successful Finish of `bob` the
stored session is the idle one and the status is 201. -/
theorem attestationPOST_success_clears_challenge_witness :
    (SecondFactorWebauthnAttestationPOST envOK
        (request [7, 12, 34, 56] bobChallenged [])).ctx.session
        = { bobChallenged with Webauthn := none } ∧
      (SecondFactorWebauthnAttestationPOST envOK
        (request [7, 12, 34, 56] bobChallenged [])).ctx.saveSessionCalls
        = [] ++ [{ bobChallenged with Webauthn := none }] ∧
      (SecondFactorWebauthnAttestationPOST envOK
        (request [7, 12, 34, 56] bobChallenged [])).isPanic = false ∧
      (SecondFactorWebauthnAttestationPOST envOK
        (request [7, 12, 34, 56] bobChallenged [])).ctx.response.statusCode = StatusCreated :=
  attestationPOST_success_clears_challenge envOK
    (request [7, 12, 34, 56] bobChallenged []) _ _ _ challengeC _ [bobDevice]
    rfl rfl rfl rfl rfl rfl rfl

/-- Claim C10.  For every Finish request in which the device save succeeds and the
session save that follows returns an error: the handler returns the
unauthorized validation-failed response, yet the repository is the one the
successful save produced (no further storage call is made), and the stored
session record is the incoming one, pending challenge included. -/
theorem attestationPOST_device_saved_but_session_save_fails (env : Env) (ctx : AutheliaCtx)
    (w : WebAuthn) (p : ParsedCredentialCreationData) (u : WebauthnUser) (sd : SessionData)
    (c : Credential) (st : List WebauthnDevice) (e : Error)
    (hw : env.getWebauthn ctx = .ok w)
    (hp : env.ParseCredentialCreationResponseBody ctx.postBody = .ok p)
    (hu : env.getWebAuthnUser ctx ctx.session = .ok u)
    (hs : ctx.session.Webauthn = some sd)
    (hc : env.CreateCredential w u sd p = .ok c)
    (hst : env.storageSaveWebauthnDevice ctx.storage
      (env.NewWebauthnDeviceFromCredential ctx.session.Username "Primary" ctx.remoteIP c)
        = .ok st)
    (hse : env.sessionSave { ctx.session with Webauthn := none } = some e) :
    (SecondFactorWebauthnAttestationPOST env ctx).isPanic = false ∧
      (SecondFactorWebauthnAttestationPOST env ctx).ctx.response
        = { statusCode := StatusUnauthorized,
            body := Body.jsonError messageMFAValidationFailed } ∧
      (SecondFactorWebauthnAttestationPOST env ctx).ctx.saveWebauthnDeviceCalls
        = ctx.saveWebauthnDeviceCalls ++
          [env.NewWebauthnDeviceFromCredential ctx.session.Username "Primary" ctx.remoteIP c] ∧
      (SecondFactorWebauthnAttestationPOST env ctx).ctx.storage = st ∧
      (SecondFactorWebauthnAttestationPOST env ctx).ctx.session = ctx.session ∧
      (SecondFactorWebauthnAttestationPOST env ctx).ctx.session.Webauthn = some sd := by
  simp only [SecondFactorWebauthnAttestationPOST, AutheliaCtx.GetSession, hw, hp, hu, hs, hc,
    AutheliaCtx.SaveWebauthnDevice, hst, AutheliaCtx.SaveSession, hse]
  simp [respondUnauthorized_eq, Run.ctx, Run.isPanic, hs]

/-- Claim C10, the execution itself: the session provider rejects the save after the
device of `bob` was stored. -/
theorem attestationPOST_device_saved_but_session_save_fails_witness :
    (SecondFactorWebauthnAttestationPOST envSessionFails
        (request [7, 12, 34, 56] bobChallenged [])).isPanic = false ∧
      (SecondFactorWebauthnAttestationPOST envSessionFails
        (request [7, 12, 34, 56] bobChallenged [])).ctx.response
        = { statusCode := StatusUnauthorized,
            body := Body.jsonError messageMFAValidationFailed } ∧
      (SecondFactorWebauthnAttestationPOST envSessionFails
        (request [7, 12, 34, 56] bobChallenged [])).ctx.saveWebauthnDeviceCalls
        = [] ++ [bobDevice] ∧
      (SecondFactorWebauthnAttestationPOST envSessionFails
        (request [7, 12, 34, 56] bobChallenged [])).ctx.storage = [bobDevice] ∧
      (SecondFactorWebauthnAttestationPOST envSessionFails
        (request [7, 12, 34, 56] bobChallenged [])).ctx.session = bobChallenged ∧
      (SecondFactorWebauthnAttestationPOST envSessionFails
        (request [7, 12, 34, 56] bobChallenged [])).ctx.session.Webauthn = some challengeC :=
  attestationPOST_device_saved_but_session_save_fails envSessionFails
    (request [7, 12, 34, 56] bobChallenged []) _ _ _ challengeC _ [bobDevice]
    "session write error" rfl rfl rfl rfl rfl rfl rfl

/-- Claim C8 as stated fails.  The credential verified for `bob` has identifier `[7]`,
which is already among the registered credentials of `bob`; the handler
nevertheless saves a second device and answers 201 Created. -/
theorem attestationPOST_duplicate_identifier_counterexample :
    envOK.getWebAuthnUser (request [7, 12, 34, 56] bobChallenged [bobDevice]) bobChallenged
        = .ok bobUser ∧
      envOK.CreateCredential
          { RPID := "auth.example.com", RPOrigin := "https://auth.example.com",
            RPDisplayName := "Authelia" }
          bobUser challengeC
          { Origin := "https://auth.example.com", RelyingPartyID := "auth.example.com",
            Challenge := [12, 34, 56], CredentialID := [7], PublicKey := [1, 2, 3],
            Signature := [4] }
        = .ok bobCredential ∧
      bobCredential.ID ∈ bobUser.credentialIDs ∧
      (SecondFactorWebauthnAttestationPOST envOK
        (request [7, 12, 34, 56] bobChallenged [bobDevice])).ctx.saveWebauthnDeviceCalls
        = [bobDevice] ∧
      (SecondFactorWebauthnAttestationPOST envOK
        (request [7, 12, 34, 56] bobChallenged [bobDevice])).ctx.storage
        = [bobDevice, bobDevice] ∧
      (SecondFactorWebauthnAttestationPOST envOK
        (request [7, 12, 34, 56] bobChallenged [bobDevice])).ctx.response
        = { statusCode := StatusCreated, body := Body.jsonOK } := by
  refine ⟨rfl, rfl, ?_, rfl, rfl, rfl⟩
  decide

/-- Claim C8, amended.  For every Finish request in which verification yields a credential
whose identifier is already among the registered credentials of the identity,
the handler makes no check of its own: it hands the built device to
`SaveWebauthnDevice`.  The Finish fails with the validation-failed response,
nothing stored and the session not written, when `SaveWebauthnDevice`
returns an error; when it succeeds the device is in the repository. -/
theorem attestationPOST_duplicate_identifier_left_to_storage (env : Env) (ctx : AutheliaCtx)
    (w : WebAuthn) (p : ParsedCredentialCreationData) (u : WebauthnUser) (sd : SessionData)
    (c : Credential)
    (hw : env.getWebauthn ctx = .ok w)
    (hp : env.ParseCredentialCreationResponseBody ctx.postBody = .ok p)
    (hu : env.getWebAuthnUser ctx ctx.session = .ok u)
    (hs : ctx.session.Webauthn = some sd)
    (hc : env.CreateCredential w u sd p = .ok c)
    (_hdup : c.ID ∈ u.credentialIDs) :
    (SecondFactorWebauthnAttestationPOST env ctx).ctx.saveWebauthnDeviceCalls
        = ctx.saveWebauthnDeviceCalls ++
          [env.NewWebauthnDeviceFromCredential ctx.session.Username "Primary" ctx.remoteIP c] ∧
      (∀ e, env.storageSaveWebauthnDevice ctx.storage
          (env.NewWebauthnDeviceFromCredential ctx.session.Username "Primary" ctx.remoteIP c)
            = .error e →
        (SecondFactorWebauthnAttestationPOST env ctx).ctx.storage = ctx.storage ∧
        (SecondFactorWebauthnAttestationPOST env ctx).ctx.saveSessionCalls
          = ctx.saveSessionCalls ∧
        (SecondFactorWebauthnAttestationPOST env ctx).ctx.response
          = { statusCode := StatusUnauthorized,
              body := Body.jsonError messageMFAValidationFailed }) ∧
      (∀ st, env.storageSaveWebauthnDevice ctx.storage
          (env.NewWebauthnDeviceFromCredential ctx.session.Username "Primary" ctx.remoteIP c)
            = .ok st →
        (SecondFactorWebauthnAttestationPOST env ctx).ctx.storage = st) := by
  simp only [SecondFactorWebauthnAttestationPOST, AutheliaCtx.GetSession, hw, hp, hu, hs, hc,
    AutheliaCtx.SaveWebauthnDevice, AutheliaCtx.SaveSession]
  cases hst : env.storageSaveWebauthnDevice ctx.storage
      (env.NewWebauthnDeviceFromCredential ctx.session.Username "Primary" ctx.remoteIP c) with
  | error e => simp [respondUnauthorized_eq, Run.ctx]
  | ok st =>
    cases env.sessionSave { ctx.session with Webauthn := none } <;>
      simp [respondUnauthorized_eq, Run.ctx, AutheliaCtx.ReplyOK, AutheliaCtx.SetStatusCode]

/-- Claim C8, amended, at a concrete request: the identifier `[7]` is already registered
and the repository rejects the device. -/
theorem attestationPOST_duplicate_identifier_left_to_storage_witness :
    bobCredential.ID ∈ bobUser.credentialIDs ∧
      (SecondFactorWebauthnAttestationPOST envStorageFails
        (request [7, 12, 34, 56] bobChallenged [bobDevice])).ctx.saveWebauthnDeviceCalls
        = [] ++ [bobDevice] ∧
      (SecondFactorWebauthnAttestationPOST envStorageFails
        (request [7, 12, 34, 56] bobChallenged [bobDevice])).ctx.storage = [bobDevice] ∧
      (SecondFactorWebauthnAttestationPOST envStorageFails
        (request [7, 12, 34, 56] bobChallenged [bobDevice])).ctx.response
        = { statusCode := StatusUnauthorized,
            body := Body.jsonError messageMFAValidationFailed } :=
  have h := attestationPOST_duplicate_identifier_left_to_storage envStorageFails
    (request [7, 12, 34, 56] bobChallenged [bobDevice]) _ _ bobUser challengeC bobCredential
    rfl rfl rfl rfl rfl (by decide)
  ⟨by decide, h.1, (h.2.1 "storage error" rfl).1, (h.2.1 "storage error" rfl).2.2⟩

/-- A Finish run that ends with status 201 leaves a session record with an empty
pending-challenge slot. -/
theorem attestationPOST_created_clears_slot (env : Env) (ctx : AutheliaCtx)
    (hsucc : (SecondFactorWebauthnAttestationPOST env ctx).ctx.response.statusCode
      = StatusCreated) :
    (SecondFactorWebauthnAttestationPOST env ctx).ctx.session.Webauthn = none := by
  have h401 : StatusUnauthorized ≠ StatusCreated := by decide
  revert hsucc
  unfold SecondFactorWebauthnAttestationPOST
  simp only [AutheliaCtx.GetSession, AutheliaCtx.SaveWebauthnDevice, AutheliaCtx.SaveSession]
  cases hw : env.getWebauthn ctx with
  | error e => simp [respondUnauthorized_eq, Run.ctx, h401]
  | ok w =>
    cases hp : env.ParseCredentialCreationResponseBody ctx.postBody with
    | error e => simp [respondUnauthorized_eq, Run.ctx, h401]
    | ok p =>
      cases hu : env.getWebAuthnUser ctx ctx.session with
      | error e => simp [respondUnauthorized_eq, Run.ctx, h401]
      | ok u =>
        cases hs : ctx.session.Webauthn with
        | none => simp [Run.ctx, hs]
        | some sd =>
          cases hc : env.CreateCredential w u sd p with
          | error e => simp [respondUnauthorized_eq, Run.ctx, h401, hc]
          | ok c =>
            cases hst : env.storageSaveWebauthnDevice ctx.storage
                (env.NewWebauthnDeviceFromCredential ctx.session.Username "Primary"
                  ctx.remoteIP c) with
            | error e => simp [respondUnauthorized_eq, Run.ctx, h401, hc, hst]
            | ok st =>
              cases hse : env.sessionSave { ctx.session with Webauthn := none } with
              | some e => simp [respondUnauthorized_eq, Run.ctx, h401, hc, hst, hse]
              | none =>
                simp [Run.ctx, AutheliaCtx.ReplyOK, AutheliaCtx.SetStatusCode, hc, hst, hse]

/-- A Finish run on a session with an empty pending-challenge slot calls neither
`SaveWebauthnDevice` nor `SaveSession`, leaves the repository alone and does
not end with status 201 unless the incoming status was 201. -/
theorem attestationPOST_empty_slot_no_success (env : Env) (ctx : AutheliaCtx)
    (hnil : ctx.session.Webauthn = none)
    (hfresh : ctx.response.statusCode ≠ StatusCreated) :
    (SecondFactorWebauthnAttestationPOST env ctx).ctx.saveWebauthnDeviceCalls
        = ctx.saveWebauthnDeviceCalls ∧
      (SecondFactorWebauthnAttestationPOST env ctx).ctx.storage = ctx.storage ∧
      (SecondFactorWebauthnAttestationPOST env ctx).ctx.response.statusCode
        ≠ StatusCreated := by
  have h401 : StatusUnauthorized ≠ StatusCreated := by decide
  unfold SecondFactorWebauthnAttestationPOST
  simp only [AutheliaCtx.GetSession, hnil]
  cases env.getWebauthn ctx with
  | error e => simp [respondUnauthorized_eq, Run.ctx, h401]
  | ok w =>
    cases env.ParseCredentialCreationResponseBody ctx.postBody with
    | error e => simp [respondUnauthorized_eq, Run.ctx, h401]
    | ok p =>
      cases env.getWebAuthnUser ctx ctx.session with
      | error e => simp [respondUnauthorized_eq, Run.ctx, h401]
      | ok u => simp [Run.ctx, hfresh]

/-- Claim C4.  For every session, request body and behaviour of the collaborators: if a
Finish request succeeds, that is, ends with status 201 Created, then a second
Finish request with the identical body on the session record and repository
the first one left does not succeed: it calls `SaveWebauthnDevice` not at
all, leaves the repository as the first request left it, and does not end
with status 201. -/
theorem attestationPOST_replay_does_not_succeed (env1 env2 : Env) (ctx : AutheliaCtx)
    (remoteIP : Bytes)
    (hsucc : (SecondFactorWebauthnAttestationPOST env1 ctx).ctx.response.statusCode
      = StatusCreated) :
    (SecondFactorWebauthnAttestationPOST env2
        (nextRequest (SecondFactorWebauthnAttestationPOST env1 ctx).ctx
          ctx.postBody remoteIP)).ctx.saveWebauthnDeviceCalls = [] ∧
      (SecondFactorWebauthnAttestationPOST env2
        (nextRequest (SecondFactorWebauthnAttestationPOST env1 ctx).ctx
          ctx.postBody remoteIP)).ctx.storage
        = (SecondFactorWebauthnAttestationPOST env1 ctx).ctx.storage ∧
      (SecondFactorWebauthnAttestationPOST env2
        (nextRequest (SecondFactorWebauthnAttestationPOST env1 ctx).ctx
          ctx.postBody remoteIP)).ctx.response.statusCode ≠ StatusCreated :=
  attestationPOST_empty_slot_no_success env2
    (nextRequest (SecondFactorWebauthnAttestationPOST env1 ctx).ctx ctx.postBody remoteIP)
    (attestationPOST_created_clears_slot env1 ctx hsucc) status_codes_ne.2.1

/-- Claim C4 at the scenario of the spec: the Finish of `bob` succeeds once; the replay
of the identical body saves nothing more and does not answer 201. -/
theorem attestationPOST_replay_does_not_succeed_witness :
    (SecondFactorWebauthnAttestationPOST envOK
        (request [7, 12, 34, 56] bobChallenged [])).ctx.response.statusCode = StatusCreated ∧
      (SecondFactorWebauthnAttestationPOST envOK
        (nextRequest (SecondFactorWebauthnAttestationPOST envOK
            (request [7, 12, 34, 56] bobChallenged [])).ctx
          [7, 12, 34, 56] [192, 168, 0, 7])).ctx.saveWebauthnDeviceCalls = [] ∧
      (SecondFactorWebauthnAttestationPOST envOK
        (nextRequest (SecondFactorWebauthnAttestationPOST envOK
            (request [7, 12, 34, 56] bobChallenged [])).ctx
          [7, 12, 34, 56] [192, 168, 0, 7])).ctx.storage
        = (SecondFactorWebauthnAttestationPOST envOK
            (request [7, 12, 34, 56] bobChallenged [])).ctx.storage ∧
      (SecondFactorWebauthnAttestationPOST envOK
        (nextRequest (SecondFactorWebauthnAttestationPOST envOK
            (request [7, 12, 34, 56] bobChallenged [])).ctx
          [7, 12, 34, 56] [192, 168, 0, 7])).ctx.response.statusCode ≠ StatusCreated :=
  ⟨rfl,
    attestationPOST_replay_does_not_succeed envOK envOK
      (request [7, 12, 34, 56] bobChallenged []) [192, 168, 0, 7] rfl⟩

/-- Claim C9.  For every Finish request that fails at the configuration, parse, user-load,
verification or device-storage step (and likewise when the session holds no
pending challenge), `SaveSession` is not called and the stored session record
is exactly the incoming one; the repository is unchanged as well, so any next
Begin request runs as it would have run without this Finish. -/
theorem attestationPOST_failure_leaves_session (env : Env) (ctx : AutheliaCtx)
    (hfail :
      (∃ e, env.getWebauthn ctx = .error e) ∨
      (∃ e, env.ParseCredentialCreationResponseBody ctx.postBody = .error e) ∨
      (∃ e, env.getWebAuthnUser ctx ctx.session = .error e) ∨
      ctx.session.Webauthn = none ∨
      (∃ w p u sd e,
        env.getWebauthn ctx = .ok w ∧
        env.ParseCredentialCreationResponseBody ctx.postBody = .ok p ∧
        env.getWebAuthnUser ctx ctx.session = .ok u ∧
        ctx.session.Webauthn = some sd ∧
        env.CreateCredential w u sd p = .error e) ∨
      (∃ w p u sd c e,
        env.getWebauthn ctx = .ok w ∧
        env.ParseCredentialCreationResponseBody ctx.postBody = .ok p ∧
        env.getWebAuthnUser ctx ctx.session = .ok u ∧
        ctx.session.Webauthn = some sd ∧
        env.CreateCredential w u sd p = .ok c ∧
        env.storageSaveWebauthnDevice ctx.storage
          (env.NewWebauthnDeviceFromCredential ctx.session.Username "Primary" ctx.remoteIP c)
            = .error e)) :
    (SecondFactorWebauthnAttestationPOST env ctx).ctx.saveSessionCalls = ctx.saveSessionCalls ∧
      (SecondFactorWebauthnAttestationPOST env ctx).ctx.session = ctx.session ∧
      (SecondFactorWebauthnAttestationPOST env ctx).ctx.storage = ctx.storage ∧
      ∀ (env2 : Env) (postBody remoteIP : Bytes),
        SecondFactorWebauthnAttestationGET env2
            (nextRequest (SecondFactorWebauthnAttestationPOST env ctx).ctx postBody remoteIP)
          = SecondFactorWebauthnAttestationGET env2 (nextRequest ctx postBody remoteIP) := by
  have key : (SecondFactorWebauthnAttestationPOST env ctx).ctx.saveSessionCalls
        = ctx.saveSessionCalls ∧
      (SecondFactorWebauthnAttestationPOST env ctx).ctx.session = ctx.session ∧
      (SecondFactorWebauthnAttestationPOST env ctx).ctx.storage = ctx.storage := by
    revert hfail
    unfold SecondFactorWebauthnAttestationPOST
    simp only [AutheliaCtx.GetSession, AutheliaCtx.SaveWebauthnDevice, AutheliaCtx.SaveSession]
    cases hw : env.getWebauthn ctx with
    | error e => simp [respondUnauthorized_eq, Run.ctx]
    | ok w =>
      cases hp : env.ParseCredentialCreationResponseBody ctx.postBody with
      | error e => simp [respondUnauthorized_eq, Run.ctx]
      | ok p =>
        cases hu : env.getWebAuthnUser ctx ctx.session with
        | error e => simp [respondUnauthorized_eq, Run.ctx]
        | ok u =>
          cases hs : ctx.session.Webauthn with
          | none => simp [Run.ctx]
          | some sd =>
            cases hc : env.CreateCredential w u sd p with
            | error e => simp [respondUnauthorized_eq, Run.ctx, hc]
            | ok c =>
              cases hst : env.storageSaveWebauthnDevice ctx.storage
                  (env.NewWebauthnDeviceFromCredential ctx.session.Username "Primary"
                    ctx.remoteIP c) with
              | error e => simp [respondUnauthorized_eq, Run.ctx, hc, hst]
              | ok st => simp [hc, hst]
  refine ⟨key.1, key.2.1, key.2.2, ?_⟩
  intro env2 postBody remoteIP
  simp only [nextRequest, key.2.1, key.2.2]

/-- Claim C9 at the scenario of the spec: the storage call of the Finish of `bob` fails;
the session still holds the pending challenge `C`. -/
theorem attestationPOST_failure_leaves_session_witness :
    (SecondFactorWebauthnAttestationPOST envStorageFails
        (request [7, 12, 34, 56] bobChallenged [])).ctx.saveSessionCalls = [] ∧
      (SecondFactorWebauthnAttestationPOST envStorageFails
        (request [7, 12, 34, 56] bobChallenged [])).ctx.session = bobChallenged ∧
      (SecondFactorWebauthnAttestationPOST envStorageFails
        (request [7, 12, 34, 56] bobChallenged [])).ctx.storage = [] ∧
      ∀ (env2 : Env) (postBody remoteIP : Bytes),
        SecondFactorWebauthnAttestationGET env2
            (nextRequest (SecondFactorWebauthnAttestationPOST envStorageFails
              (request [7, 12, 34, 56] bobChallenged [])).ctx postBody remoteIP)
          = SecondFactorWebauthnAttestationGET env2
            (nextRequest (request [7, 12, 34, 56] bobChallenged []) postBody remoteIP) :=
  attestationPOST_failure_leaves_session envStorageFails
    (request [7, 12, 34, 56] bobChallenged [])
    (Or.inr (Or.inr (Or.inr (Or.inr (Or.inr
      ⟨_, _, _, challengeC, bobCredential, "storage error",
        rfl, rfl, rfl, rfl, rfl, rfl⟩)))))

/-! ## Begin: `SecondFactorWebauthnAttestationGET` -/

/-- Claim C7.  For every Begin request in which the configuration, the user load,
`BeginRegistration` and the session save succeed, `SaveSession` is called
once and the stored session record is the incoming one with the
pending-challenge slot replaced by the session data `BeginRegistration`
returned in this request, whatever the slot held before; every other field
is unchanged. -/
theorem attestationGET_overwrites_pending_challenge (env : Env) (ctx : AutheliaCtx)
    (w : WebAuthn) (u : WebauthnUser) (cc : Option CredentialCreation)
    (sd : Option SessionData)
    (hw : env.getWebauthn ctx = .ok w)
    (hu : env.getWebAuthnUser ctx ctx.session = .ok u)
    (hb : env.BeginRegistration w u = (cc, sd, none))
    (hse : env.sessionSave { ctx.session with Webauthn := sd } = none) :
    (SecondFactorWebauthnAttestationGET env ctx).ctx.session
        = { ctx.session with Webauthn := sd } ∧
      (SecondFactorWebauthnAttestationGET env ctx).ctx.session.Webauthn = sd ∧
      (SecondFactorWebauthnAttestationGET env ctx).ctx.saveSessionCalls
        = ctx.saveSessionCalls ++ [{ ctx.session with Webauthn := sd }] ∧
      (SecondFactorWebauthnAttestationGET env ctx).isPanic = false := by
  simp only [SecondFactorWebauthnAttestationGET, AutheliaCtx.GetSession, hw, hu, hb,
    AutheliaCtx.SaveSession, hse, AutheliaCtx.SetJSONBody]
  cases env.encodeJSONBody cc <;> simp [respondUnauthorized_eq, Run.ctx, Run.isPanic]

/-- Claim C7 at a concrete request: the session of `bob` already holds the challenge `C`
with an empty exclusion list; a new Begin replaces it by the challenge issued
now, whose exclusion list names the registered device. -/
theorem attestationGET_overwrites_pending_challenge_witness :
    (request [] bobChallenged [bobDevice]).session.Webauthn = some challengeC ∧
      (SecondFactorWebauthnAttestationGET envOK
        (request [] bobChallenged [bobDevice])).ctx.session
        = { bobChallenged with
            Webauthn := some { challengeC with ExcludedCredentials := [[7]] } } ∧
      (SecondFactorWebauthnAttestationGET envOK
        (request [] bobChallenged [bobDevice])).ctx.session.Webauthn
        = some { challengeC with ExcludedCredentials := [[7]] } ∧
      (SecondFactorWebauthnAttestationGET envOK
        (request [] bobChallenged [bobDevice])).ctx.saveSessionCalls
        = [] ++ [{ bobChallenged with
            Webauthn := some { challengeC with ExcludedCredentials := [[7]] } }] ∧
      (SecondFactorWebauthnAttestationGET envOK
        (request [] bobChallenged [bobDevice])).isPanic = false :=
  ⟨rfl,
    attestationGET_overwrites_pending_challenge envOK (request [] bobChallenged [bobDevice])
      _ bobUser _ (some { challengeC with ExcludedCredentials := [[7]] }) rfl rfl rfl rfl⟩

/-- Claim C3, evaluated on the code.  Two failing Begin requests on the same session get
different responses: when the configuration fails the message is
`messageUnableToRegisterSecurityKey`, when the user load fails it is
`messageMFAValidationFailed`.  Likewise two failing Finish requests: when the
configuration fails the message is `messageUnableToRegisterSecurityKey`,
when the user load fails it is `messageMFAValidationFailed`. -/
theorem attestation_failure_message_depends_on_step :
    (SecondFactorWebauthnAttestationGET envConfigFails (request [] bobIdle [])).ctx.response
        = { statusCode := StatusUnauthorized,
            body := Body.jsonError messageUnableToRegisterSecurityKey } ∧
      (SecondFactorWebauthnAttestationGET envUserFails (request [] bobIdle [])).ctx.response
        = { statusCode := StatusUnauthorized,
            body := Body.jsonError messageMFAValidationFailed } ∧
      (SecondFactorWebauthnAttestationGET envConfigFails (request [] bobIdle [])).ctx.response
        ≠ (SecondFactorWebauthnAttestationGET envUserFails (request [] bobIdle [])).ctx.response ∧
      (SecondFactorWebauthnAttestationPOST envConfigFails
        (request [7, 12, 34, 56] bobChallenged [])).ctx.response
        = { statusCode := StatusUnauthorized,
            body := Body.jsonError messageUnableToRegisterSecurityKey } ∧
      (SecondFactorWebauthnAttestationPOST envUserFails
        (request [7, 12, 34, 56] bobChallenged [])).ctx.response
        = { statusCode := StatusUnauthorized,
            body := Body.jsonError messageMFAValidationFailed } ∧
      (SecondFactorWebauthnAttestationPOST envConfigFails
        (request [7, 12, 34, 56] bobChallenged [])).ctx.response
        ≠ (SecondFactorWebauthnAttestationPOST envUserFails
          (request [7, 12, 34, 56] bobChallenged [])).ctx.response := by
  refine ⟨rfl, rfl, ?_, rfl, rfl, ?_⟩ <;> decide

end Authelia
